import Mathlib

/-!
Shallow embedding of the pytao plotting core (`src/pytao/plotting/plot.py`).

Floating-point values are modelled as rationals.  External mathematical
routines used by the source (`np.sin`, `np.cos`, `np.arctan2`, `np.sqrt`,
`math.degrees`) are threaded through as an abstract bundle `Ext` of
functions, since the geometric claims do not depend on their analytic
values.  Lookup tables of the `pgplot` helper module (absent from the
sources) are threaded as `String → String` parameters.
-/

namespace PytaoPlot

/-- Bundle of external real-valued math routines used by the plotting code. -/
structure Ext where
  sin : ℚ → ℚ
  cos : ℚ → ℚ
  atan2 : ℚ → ℚ → ℚ
  sqrt : ℚ → ℚ
  degrees : ℚ → ℚ

/-- Python exception outcomes raised by the plotting code. -/
inductive Err
  | noCurveData
  | valueError (msg : String)
  | notImplementedError (msg : String)
  | assertionError
deriving DecidableEq, Repr

/-- `True` exactly on `Except.ok` results (Python call returning normally). -/
def okB {α : Type} : Except Err α → Bool
  | .ok _ => true
  | .error _ => false

/-- Python `s.endswith(suffix)` (structural, kernel-evaluable variant of the
library function). -/
def strEndsWith (s suffix : String) : Bool := suffix.data.isSuffixOf s.data

/-- Python `s.startswith(p)`. -/
def strStartsWith (s p : String) : Bool := p.data.isPrefixOf s.data

/-- ASCII lower-casing of one character. -/
def charLower (c : Char) : Char :=
  if 65 ≤ c.toNat ∧ c.toNat ≤ 90 then Char.ofNat (c.toNat + 32) else c

/-- Python `s.lower()` (the source only applies it to ASCII keys). -/
def strLower (s : String) : String := ⟨s.data.map charLower⟩

/-- Everything after the first colon, when one exists. -/
def dropThroughColon : List Char → Option (List Char)
  | [] => none
  | c :: cs => if c = ':' then some cs else dropThroughColon cs

/-- Embeds `PlotCurveLine` (a polyline primitive). -/
structure PlotCurveLine where
  xs : List ℚ
  ys : List ℚ
  color : String := "black"
  linestyle : String := "solid"
  linewidth : ℚ := 1
deriving DecidableEq, Repr

/-- Embeds `PlotCurveSymbols` (a marker-set primitive). -/
structure PlotCurveSymbols where
  xs : List ℚ
  ys : List ℚ
  color : String
  markerfacecolor : String
  markersize : ℚ
  marker : String
  markeredgewidth : ℚ
  linewidth : ℚ := 0
deriving DecidableEq, Repr

/-- Embeds `PlotHistogram`. -/
structure PlotHistogram where
  xs : List ℚ
  bins : ℤ
  weights : List ℚ
  histtype : String
  color : String
deriving DecidableEq, Repr

/-- Embeds `PlotPatchRectangle` (style fields kept where claims need them). -/
structure PlotPatchRectangle where
  xy : ℚ × ℚ := (0, 0)
  width : ℚ := 0
  height : ℚ := 0
  angle : ℚ := 0
  color : Option String := none
  linewidth : Option ℚ := none
  fill : Bool := true
deriving DecidableEq, Repr

/-- Embeds `PlotPatchArc`. -/
structure PlotPatchArc where
  xy : ℚ × ℚ := (0, 0)
  width : ℚ := 0
  height : ℚ := 0
  angle : ℚ := 0
  theta1 : ℚ := 0
  theta2 : ℚ := 360
  color : Option String := none
  linewidth : Option ℚ := none
  fill : Bool := false
deriving DecidableEq, Repr

/-- Embeds `PlotPatchCircle`. -/
structure PlotPatchCircle where
  xy : ℚ × ℚ := (0, 0)
  radius : ℚ := 0
  color : Option String := none
  linewidth : Option ℚ := none
  fill : Bool := true
deriving DecidableEq, Repr

/-- Embeds `PlotPatchEllipse`. -/
structure PlotPatchEllipse where
  xy : ℚ × ℚ := (0, 0)
  width : ℚ := 0
  height : ℚ := 0
  angle : ℚ := 0
  color : Option String := none
  linewidth : Option ℚ := none
  fill : Bool := true
deriving DecidableEq, Repr

/-- Embeds `PlotPatchPolygon`. -/
structure PlotPatchPolygon where
  vertices : List (ℚ × ℚ) := []
  color : Option String := none
  linewidth : Option ℚ := none
  fill : Bool := true
deriving DecidableEq, Repr

/-- Embeds `PlotPatchSbend` (custom closed path: two quadratic splines joined
by straight segments, per its `to_mpl` path codes). -/
structure PlotPatchSbend where
  spline1 : (ℚ × ℚ) × (ℚ × ℚ) × (ℚ × ℚ)
  spline2 : (ℚ × ℚ) × (ℚ × ℚ) × (ℚ × ℚ)
  facecolor : Option String := none
  alpha : ℚ := 1
deriving DecidableEq, Repr

/-- Embeds the `PlotPatch` union. -/
inductive PlotPatch
  | rect (r : PlotPatchRectangle)
  | arc (a : PlotPatchArc)
  | circle (c : PlotPatchCircle)
  | ellipse (e : PlotPatchEllipse)
  | polygon (p : PlotPatchPolygon)
  | sbend (s : PlotPatchSbend)
deriving DecidableEq, Repr

/-- `True` exactly on the custom closed-path (`PlotPatchSbend`) variant. -/
def isSbendPatch : PlotPatch → Bool
  | .sbend _ => true
  | _ => false

/-- Embeds the text-label primitive of the source (`plot.py` line 118). -/
structure PlotLabel where
  x : ℚ
  y : ℚ
  text : String
  horizontalalignment : String := "left"
  verticalalignment : String := "baseline"
  clipOn : Bool := false
  color : String := "black"
  rotation : ℚ := 0
  rotationMode : String := "default"
deriving DecidableEq, Repr

/-- Embeds `_should_use_symbol_color`; `fills` stands for the `pgplot.fills`
lookup table, which is not among the sources. -/
def shouldUseSymbolColor (fills : String → String) (symbolType fillPattern : String) : Bool :=
  if symbolType = "dot" ∨ symbolType = "1"
      ∨ strEndsWith symbolType "filled" ∨ strStartsWith symbolType "-" then
    true
  else if fills fillPattern = "full" then
    true
  else
    false

/-- Python `max` over a non-empty list (defaults to 0 on `[]`, a case the
source never reaches because of its emptiness guards). -/
def listMax : List ℚ → ℚ
  | [] => 0
  | x :: xs => xs.foldl max x

/-- Python `min` over a non-empty list (defaults to 0 on `[]`). -/
def listMin : List ℚ → ℚ
  | [] => 0
  | x :: xs => xs.foldl min x

/-- The y-range block of `PlotCurve.from_info` (`plot.py` lines 583-599),
returning `(y_min, y_max)`. -/
def curveYRange (ypoints symbolYs : List ℚ) : Except Err (ℚ × ℚ) :=
  if ypoints ≠ [] ∧ symbolYs ≠ [] then
    let mhigh := max (listMax ypoints) (listMax symbolYs)
    let mlow := min (listMin ypoints) (listMin symbolYs)
    .ok (min ((1 / 2) * mlow) (2 * mlow), max ((1 / 2) * mhigh) (2 * mhigh))
  else if symbolYs ≠ [] then
    .ok (listMin symbolYs, listMax symbolYs)
  else if ypoints ≠ [] then
    .ok (listMin ypoints, listMax ypoints)
  else
    .error .noCurveData

/-- The `line` sub-record of a curve info record. -/
structure CurveLineInfo where
  color : String
  pattern : String
  width : ℚ
deriving DecidableEq, Repr

/-- The `symbol` sub-record of a curve info record. -/
structure CurveSymbolInfo where
  color : String
  symbolType : String
  fillPattern : String
  height : ℚ
  lineWidth : ℚ
deriving DecidableEq, Repr

/-- The fields of `PlotCurveInfo` that `from_info` reads. -/
structure CurveInfo where
  line : CurveLineInfo
  symbol : CurveSymbolInfo
  drawLine : Bool
  drawSymbols : Bool
deriving DecidableEq, Repr

/-- The wave-parameter record (`ix_a1`/`ix_a2`/`ix_b1`/`ix_b2`). -/
structure WaveParams where
  ixA1 : ℚ
  ixA2 : ℚ
  ixB1 : ℚ
  ixB2 : ℚ
deriving DecidableEq, Repr

/-- Embeds the `PlotCurve` dataclass. -/
structure PlotCurve where
  line : Option PlotCurveLine
  symbol : Option PlotCurveSymbols
  histogram : Option PlotHistogram := none
  patches : Option (List PlotPatch) := none
deriving DecidableEq, Repr

/-- Python `int()` truncation toward zero on a float. -/
def pyInt (q : ℚ) : ℤ := if 0 ≤ q then ⌊q⌋ else ⌈q⌉

/-- The patches of a successful `from_info` call, if any. -/
def patchesOf : Except Err PlotCurve → Option (List PlotPatch)
  | .ok c => c.patches
  | .error _ => none

/-- Embeds `PlotCurve.from_info` (`plot.py` lines 542-690).  The `pgplot`
tables `mpl_color`, `styles`, `fills`, `symbols` are threaded as parameters
(their module is not among the sources); `symbols t ≠ ""` models the
truthiness test `pgplot.symbols[symbol_type]`. -/
def PlotCurve.fromInfo
    (mplColor styles fills symbols : String → String)
    (graphType : String)
    (curveInfo : CurveInfo)
    (points symbolPoints : List (ℚ × ℚ))
    (histogramInfo : Option ℚ)
    (waveParams : Option WaveParams) : Except Err PlotCurve :=
  let lineColor := mplColor curveInfo.line.color
  let lineStyle := styles (strLower curveInfo.line.pattern)
  let lineWidth := if curveInfo.drawLine then curveInfo.line.width else 0
  let symbolColor := mplColor curveInfo.symbol.color
  let symbolType := curveInfo.symbol.symbolType
  let markerColor :=
    if shouldUseSymbolColor fills symbolType curveInfo.symbol.fillPattern then
      curveInfo.symbol.color
    else
      "none"
  let markerSize :=
    if curveInfo.drawSymbols ∧ symbols symbolType ≠ "" then curveInfo.symbol.height else 0
  let symbolLineWidth := curveInfo.symbol.lineWidth
  let xpoints := points.map Prod.fst
  let ypoints := points.map Prod.snd
  let symbolXs := symbolPoints.map Prod.fst
  let symbolYs := symbolPoints.map Prod.snd
  match curveYRange ypoints symbolYs with
  | .error e => .error e
  | .ok (yMin, yMax) =>
    let curveLine : Option PlotCurveLine :=
      if xpoints ≠ [] then
        some { xs := xpoints, ys := ypoints, color := lineColor, linestyle := lineStyle,
               linewidth := lineWidth / 2 }
      else none
    let curveSymbols : Option PlotCurveSymbols :=
      if symbolXs ≠ [] then
        some { xs := symbolXs, ys := symbolYs, color := symbolColor, linewidth := 0,
               markerfacecolor := markerColor, markersize := markerSize / 2,
               marker := symbolType, markeredgewidth := symbolLineWidth / 2 }
      else none
    if graphType = "data" ∨ graphType = "dynamic_aperture" ∨ graphType = "phase_space" then
      .ok { line := curveLine, symbol := curveSymbols }
    else if graphType = "wave.0" ∨ graphType = "wave.a" ∨ graphType = "wave.b" then
      match waveParams with
      | none => .error (.valueError ("wave_params required for graph type: " ++ graphType))
      | some wp =>
        let waveColor :=
          if symbolColor = "blue" ∨ symbolColor = "navy" ∨ symbolColor = "cyan"
              ∨ symbolColor = "green" ∨ symbolColor = "purple" then
            "orange"
          else
            "blue"
        let patchesA : List PlotPatch :=
          if graphType = "wave.0" ∨ graphType = "wave.a" then
            [.rect { xy := (wp.ixA1, yMin), width := wp.ixA2 - wp.ixA1,
                     height := yMax - yMin, fill := false, color := some waveColor }]
          else []
        let patchesB : List PlotPatch :=
          if graphType = "wave.0" ∨ graphType = "wave.b" then
            [.rect { xy := (wp.ixB1, yMin), width := wp.ixB2 - wp.ixB1,
                     height := yMax - yMin, fill := false, color := some waveColor }]
          else []
        .ok { line := curveLine, symbol := curveSymbols, patches := some (patchesA ++ patchesB) }
    else if graphType = "histogram" then
      match histogramInfo with
      | none => .error .assertionError
      | some number =>
        .ok { line := none, symbol := none,
              histogram := some { xs := xpoints, bins := pyInt number, weights := ypoints,
                                  histtype := "step", color := symbolColor } }
    else
      .error (.notImplementedError ("graph_type: " ++ graphType))

/-- The `shape.split(":", 1)` step of the builders: drop an optional tag
before the first colon. -/
def shapeAfterColon (shape : String) : String :=
  match dropThroughColon shape.data with
  | some rest => ⟨rest⟩
  | none => shape

/-- Embeds `LatticeLayoutElement` (patches, polylines, labels, style). -/
structure LatticeLayoutElement where
  patches : List PlotPatch
  lines : List (List (ℚ × ℚ))
  annots : List PlotLabel
  color : String
  width : ℚ
deriving DecidableEq, Repr

/-- The fields of `PlotLatLayoutInfo` that the element builder reads. -/
structure LatLayoutInfo where
  eleSStart : ℚ
  eleSEnd : ℚ
  y1 : ℚ
  y2 : ℚ
  lineWidth : ℚ
  color : String
  shape : String
  labelName : String
deriving DecidableEq, Repr

/-- Embeds `LatticeLayoutElement.regular_shape` (`plot.py` lines 814-888):
the `assert s2 > s1` is modelled as `Err.assertionError`. -/
def LatticeLayoutElement.regularShape (s1 s2 y1 y2 width : ℚ) (color shape name : String)
    (y2Floor : ℚ) :
    Except Err (List PlotPatch × List (List (ℚ × ℚ)) × List PlotLabel) :=
  if ¬ s1 < s2 then .error .assertionError
  else
    let annots : List PlotLabel :=
      if name ≠ "" then
        [{ x := (s1 + s2) / 2, y := (11 / 10) * y2Floor, text := name,
           horizontalalignment := "center", verticalalignment := "top",
           clipOn := false, color := color, rotation := 90 }]
      else []
    let boxPatch : PlotPatchRectangle :=
      { xy := (s1, y1), width := s2 - s1, height := y2 - y1,
        linewidth := some width, color := some color, fill := false }
    let sMid := (s1 + s2) / 2
    let yMid := (y1 + y2) / 2
    if shape = "box" then
      .ok ([.rect boxPatch], [], annots)
    else if shape = "xbox" then
      .ok ([.rect boxPatch], [[(s1, y1), (s2, y2)], [(s1, y2), (s2, y1)]], annots)
    else if shape = "x" then
      .ok ([], [[(s1, y1), (s2, y2)], [(s1, y2), (s2, y1)]], annots)
    else if shape = "bow_tie" then
      .ok ([], [[(s1, y1), (s2, y2), (s2, y1), (s1, y2), (s1, y1)]], annots)
    else if shape = "rbow_tie" then
      .ok ([], [[(s1, y1), (s2, y2), (s1, y2), (s2, y1), (s1, y1)]], annots)
    else if shape = "diamond" then
      .ok ([], [[(s1, 0), (sMid, y1), (s2, 0), (sMid, y2), (s1, 0)]], annots)
    else if shape = "circle" then
      .ok ([.ellipse { xy := (sMid, 0), width := y1 - y2, height := y1 - y2,
                       linewidth := some width, color := some color, fill := false }],
           [], annots)
    else if shape = "u_triangle" then
      .ok ([.polygon { vertices := [(s1, y2), (s2, y2), (sMid, y1)],
                       linewidth := some width, color := some color, fill := false }],
           [], annots)
    else if shape = "d_triangle" then
      .ok ([.polygon { vertices := [(s1, y1), (s2, y1), (sMid, y2)],
                       linewidth := some width, color := some color, fill := false }],
           [], annots)
    else if shape = "l_triangle" then
      .ok ([.polygon { vertices := [(s1, yMid), (s2, y2), (s2, y1)],
                       linewidth := some width, color := some color, fill := false }],
           [], annots)
    else if shape = "r_triangle" then
      .ok ([.polygon { vertices := [(s1, y1), (s1, y2), (s2, yMid)],
                       linewidth := some width, color := some color, fill := false }],
           [], annots)
    else
      .error (.notImplementedError shape)

/-- Embeds `_get_wrapped_shape_coords` (`plot.py` lines 1125-1188); each entry
is an `(xs, ys)` pair; unknown shapes log a warning and yield `[]`. -/
def getWrappedShapeCoords (shape : String) (s1 s2 y1 y2 sMin sMax : ℚ) :
    List (List ℚ × List ℚ) :=
  if shape = "box" then
    [([s1, sMax], [y1, y1]), ([s1, sMax], [y2, y2]),
     ([sMin, s2], [y1, y1]), ([sMin, s2], [y2, y2]),
     ([s1, s1], [y1, y2]), ([s2, s2], [y1, y2])]
  else if shape = "xbox" then
    [([s1, sMax], [y1, y1]), ([s1, sMax], [y2, y2]),
     ([s1, sMax], [y1, 0]), ([s1, sMax], [y2, 0]),
     ([sMin, s2], [y1, y1]), ([sMin, s2], [y2, y2]),
     ([sMin, s2], [0, y1]), ([sMin, s2], [0, y2]),
     ([s1, s1], [y1, y2]), ([s2, s2], [y1, y2])]
  else if shape = "x" then
    [([s1, sMax], [y1, 0]), ([s1, sMax], [y2, 0]),
     ([sMin, s2], [0, y1]), ([sMin, s2], [0, y2])]
  else if shape = "bow_tie" then
    [([s1, sMax], [y1, y1]), ([s1, sMax], [y2, y2]),
     ([s1, sMax], [y1, 0]), ([s1, sMax], [y2, 0]),
     ([sMin, s2], [y1, y1]), ([sMin, s2], [y2, y2]),
     ([sMin, s2], [0, y1]), ([sMin, s2], [0, y2])]
  else if shape = "diamond" then
    [([s1, sMax], [0, y1]), ([s1, sMax], [0, y2]),
     ([sMin, s2], [y1, 0]), ([sMin, s2], [y2, 0])]
  else
    []

/-- Embeds `LatticeLayoutElement.wrapped_shape` (`plot.py` lines 890-948);
the `assert s1 >= s2` is modelled as `Err.assertionError`. -/
def LatticeLayoutElement.wrappedShape (s1 s2 y1 y2 : ℚ) (color shape name : String)
    (xMin xMax y2Floor : ℚ) :
    Except Err (List (List (ℚ × ℚ)) × List PlotLabel) :=
  if ¬ s2 ≤ s1 then .error .assertionError
  else
    let sMin := max xMin (s1 + (s1 + s2) / 2)
    let sMax := min xMax (s1 - (s1 + s2) / 2)
    let lines := (getWrappedShapeCoords shape s1 s2 y1 y2 sMin sMax).map
      (fun p => p.1.zip p.2)
    let annots : List PlotLabel :=
      [{ x := sMax, y := (11 / 10) * y2Floor, text := name,
         horizontalalignment := "right", verticalalignment := "top",
         clipOn := true, color := color },
       { x := sMin, y := (11 / 10) * y2Floor, text := name,
         horizontalalignment := "left", verticalalignment := "top",
         clipOn := true, color := color }]
    .ok (lines, annots)

/-- Embeds `LatticeLayoutElement.from_info` (`plot.py` lines 950-1008):
scales the transverse extents, strips the shape tag, and branches on
`s2 > s1` between the regular and the wrapped builder. -/
def LatticeLayoutElement.fromInfo (xMin xMax : ℚ) (info : LatLayoutInfo)
    (y2Floor latLayoutShapeScale : ℚ) : Except Err LatticeLayoutElement :=
  let s1 := info.eleSStart
  let s2 := info.eleSEnd
  let y1 := info.y1 * latLayoutShapeScale
  let y2 := -info.y2 * latLayoutShapeScale
  let width := info.lineWidth
  let color := info.color
  let shape := shapeAfterColon info.shape
  let name := info.labelName
  if s1 < s2 then
    match LatticeLayoutElement.regularShape s1 s2 y1 y2 width color shape name y2Floor with
    | .error e => .error e
    | .ok (patches, lines, annots) =>
      .ok { patches := patches, lines := lines, annots := annots,
            color := color, width := width }
  else
    match LatticeLayoutElement.wrappedShape s1 s2 y1 y2 color shape name xMin xMax y2Floor with
    | .error e => .error e
    | .ok (lines, annots) =>
      .ok { patches := [], lines := lines, annots := annots,
            color := color, width := width }

/-- Modelled from the spec: the geometry utility module is not among the
sources; section 4.1 describes a line defined by points it passes
through.  `util.line(p, q)` is represented by the two points. -/
structure GLine where
  p1 : ℚ × ℚ
  p2 : ℚ × ℚ
deriving DecidableEq, Repr

/-- Modelled from the spec: constructor corresponding to `util.line`. -/
def lineThrough (p q : ℚ × ℚ) : GLine := ⟨p, q⟩

/-- Cross product of the direction vectors of two lines; zero exactly for
parallel (or coincident) lines. -/
def intersectDenom (a b : GLine) : ℚ :=
  (a.p1.1 - a.p2.1) * (b.p1.2 - b.p2.2) - (a.p1.2 - a.p2.2) * (b.p1.1 - b.p2.1)

/-- Modelled from the spec: `util.intersect` (section 4.1) returns the
intersection point of two infinite lines and signals a no-intersection
condition for parallel/coincident lines, here `none`. -/
def intersectLines (a b : GLine) : Option (ℚ × ℚ) :=
  if intersectDenom a b = 0 then none
  else
    let detA := a.p1.1 * a.p2.2 - a.p1.2 * a.p2.1
    let detB := b.p1.1 * b.p2.2 - b.p1.2 * b.p2.1
    some ((detA * (b.p1.1 - b.p2.1) - (a.p1.1 - a.p2.1) * detB) / intersectDenom a b,
          (detA * (b.p1.2 - b.p2.2) - (a.p1.2 - a.p2.2) * detB) / intersectDenom a b)

/-- Embeds `_sbend_intersection_to_patch` (`plot.py` lines 1544-1609). -/
def sbendIntersectionToPatch (E : Ext) (intersection : ℚ × ℚ)
    (x1 x2 y1 y2 off1 off2 angleStart angleEnd relAngleStart relAngleEnd : ℚ) :
    PlotPatch :=
  let sinStart := E.sin (angleStart - relAngleStart)
  let cosStart := E.cos (angleStart - relAngleStart)
  let sinEnd := E.sin (angleEnd + relAngleEnd)
  let cosEnd := E.cos (angleEnd + relAngleEnd)
  let c1 := (x1 - off1 * sinStart, y1 + off1 * cosStart)
  let c2 := (x2 - off1 * sinEnd, y2 + off1 * cosEnd)
  let c3 := (x1 + off2 * sinStart, y1 - off2 * cosStart)
  let c4 := (x2 + off2 * sinEnd, y2 - off2 * cosEnd)
  let outerRadius0 := E.sqrt ((x1 - off1 * sinStart - intersection.1) ^ 2
    + (y1 + off1 * cosStart - intersection.2) ^ 2)
  let innerRadius0 := E.sqrt ((x1 + off2 * sinStart - intersection.1) ^ 2
    + (y1 - off2 * cosStart - intersection.2) ^ 2)
  let outerRadius := if angleStart ≤ angleEnd then -outerRadius0 else outerRadius0
  let innerRadius := if angleStart ≤ angleEnd then -innerRadius0 else innerRadius0
  let midAngle := (angleStart + angleEnd) / 2
  let top := (intersection.1 - outerRadius * E.sin midAngle,
              intersection.2 + outerRadius * E.cos midAngle)
  let bottom := (intersection.1 - innerRadius * E.sin midAngle,
                 intersection.2 + innerRadius * E.cos midAngle)
  let topCp := (2 * top.1 - (1 / 2) * c1.1 - (1 / 2) * c2.1,
                2 * top.2 - (1 / 2) * c1.2 - (1 / 2) * c2.2)
  let bottomCp := (2 * bottom.1 - (1 / 2) * c3.1 - (1 / 2) * c4.1,
                   2 * bottom.2 - (1 / 2) * c3.2 - (1 / 2) * c4.2)
  .sbend { spline1 := (c1, topCp, c2), spline2 := (c4, bottomCp, c3),
           facecolor := some "green", alpha := 1 / 2 }

/-- Embeds `_create_sbend` (`plot.py` lines 1385-1541): intersect the two
construction lines; parallel lines fall back to two straight boundary
segments, otherwise two arc patches and one custom closed path result. -/
def createSbend (E : Ext) (x1 x2 y1 y2 off1 off2 lineWidth : ℚ) (color : String)
    (angleStart angleEnd relAngleStart relAngleEnd : ℚ) :
    List PlotCurveLine × List PlotPatch :=
  let line1 := lineThrough
    (x1 - off1 * E.sin angleStart, y1 + off1 * E.cos angleStart)
    (x1 + off2 * E.sin angleStart, y1 - off2 * E.cos angleStart)
  let line2 := lineThrough
    (x2 - off1 * E.sin angleEnd, y2 + off1 * E.cos angleEnd)
    (x2 + off2 * E.sin angleEnd, y2 - off2 * E.cos (angleEnd + relAngleEnd))
  match intersectLines line1 line2 with
  | none =>
    ([{ xs := [x1 - off1 * E.sin (angleStart - relAngleStart),
               x2 - off1 * E.sin (angleEnd + relAngleEnd)],
        ys := [y1 + off1 * E.cos (angleStart - relAngleStart),
               y2 + off1 * E.cos (angleEnd + relAngleEnd)],
        linewidth := lineWidth, color := color },
      { xs := [x1 + off2 * E.sin (angleStart - relAngleStart),
               x2 + off2 * E.sin (angleEnd + relAngleEnd)],
        ys := [y1 - off2 * E.cos (angleStart - relAngleStart),
               y2 - off2 * E.cos (angleEnd + relAngleEnd)],
        linewidth := lineWidth, color := color }],
     [])
  | some intersection =>
    let angle1 := 360 + E.degrees (E.atan2
      (y1 + off1 * E.cos (angleStart - relAngleStart) - intersection.2)
      (x1 - off1 * E.sin (angleStart - relAngleStart) - intersection.1))
    let angle2 := 360 + E.degrees (E.atan2
      (y2 + off1 * E.cos (angleEnd + relAngleEnd) - intersection.2)
      (x2 - off1 * E.sin (angleEnd + relAngleEnd) - intersection.1))
    let angle3 := 360 + E.degrees (E.atan2
      (y1 - off2 * E.cos (angleStart - relAngleStart) - intersection.2)
      (x1 + off2 * E.sin (angleStart - relAngleStart) - intersection.1))
    let angle4 := 360 + E.degrees (E.atan2
      (y2 - off2 * E.cos (angleEnd + relAngleEnd) - intersection.2)
      (x2 + off2 * E.sin (angleEnd + relAngleEnd) - intersection.1))
    let a12 := if |angle1 - angle2| < 180 then (min angle1 angle2, max angle1 angle2)
               else (max angle1 angle2, min angle1 angle2)
    let a34 := if |angle3 - angle4| < 180 then (min angle3 angle4, max angle3 angle4)
               else (max angle3 angle4, min angle3 angle4)
    let relSin := E.sin (angleStart - relAngleStart)
    let relCos := E.cos (angleStart - relAngleStart)
    let outerDiam := 2 * E.sqrt ((x1 - off1 * relSin - intersection.1) ^ 2
      + (y1 + off1 * relCos - intersection.2) ^ 2)
    let innerDiam := 2 * E.sqrt ((x1 + off2 * relSin - intersection.1) ^ 2
      + (y1 - off2 * relCos - intersection.2) ^ 2)
    let arcs : List PlotPatch :=
      [.arc { xy := intersection, width := outerDiam, height := outerDiam,
              theta1 := a12.1, theta2 := a12.2,
              linewidth := some lineWidth, color := some color },
       .arc { xy := intersection, width := innerDiam, height := innerDiam,
              theta1 := a34.1, theta2 := a34.2,
              linewidth := some lineWidth, color := some color }]
    let patch := sbendIntersectionToPatch E intersection x1 x2 y1 y2 off1 off2
      angleStart angleEnd relAngleStart relAngleEnd
    ([], arcs ++ [patch])

/-- Embeds `_create_sbend_box` (`plot.py` lines 1343-1382): the two short
end-cap segments of an sbend. -/
def createSbendBox (E : Ext) (x1 x2 y1 y2 off1 off2 lineWidth : ℚ) (color : String)
    (angleStart angleEnd relAngleStart relAngleEnd : ℚ) : List PlotCurveLine :=
  [{ xs := [x1 - off1 * E.sin (angleStart - relAngleStart),
            x1 + off2 * E.sin (angleStart - relAngleStart)],
     ys := [y1 + off1 * E.cos (angleStart - relAngleStart),
            y1 - off2 * E.cos (angleStart - relAngleStart)],
     linewidth := lineWidth, color := color },
   { xs := [x2 - off1 * E.sin (angleEnd + relAngleEnd),
            x2 + off2 * E.sin (angleEnd + relAngleEnd)],
     ys := [y2 + off1 * E.cos (angleEnd + relAngleEnd),
            y2 - off2 * E.cos (angleEnd + relAngleEnd)],
     linewidth := lineWidth, color := color }]

/-- Embeds `_box_to_patch`. -/
def boxToPatch (E : Ext) (x1 x2 y1 y2 off1 off2 lineWidth : ℚ) (color : String)
    (angleStart : ℚ) : PlotPatch :=
  .rect { xy := (x1 + off2 * E.sin angleStart, y1 - off2 * E.cos angleStart),
          width := E.sqrt ((x2 - x1) ^ 2 + (y2 - y1) ^ 2),
          height := off1 + off2,
          linewidth := some lineWidth, color := some color, fill := false,
          angle := E.degrees angleStart }

/-- Embeds `_create_x_lines`. -/
def createXLines (E : Ext) (x1 x2 y1 y2 off1 off2 lineWidth : ℚ) (color : String)
    (angleStart : ℚ) : List PlotCurveLine :=
  [{ xs := [x1 + off2 * E.sin angleStart, x2 - off1 * E.sin angleStart],
     ys := [y1 - off2 * E.cos angleStart, y2 + off1 * E.cos angleStart],
     linewidth := lineWidth, color := color },
   { xs := [x1 - off1 * E.sin angleStart, x2 + off2 * E.sin angleStart],
     ys := [y1 + off1 * E.cos angleStart, y2 - off2 * E.cos angleStart],
     linewidth := lineWidth, color := color }]

/-- Embeds `_create_x_box`. -/
def createXBox (E : Ext) (x1 x2 y1 y2 off1 off2 lineWidth : ℚ) (color : String)
    (angleStart : ℚ) : PlotCurveLine :=
  let px0 := x1 + off2 * E.sin angleStart
  let py0 := y1 - off2 * E.cos angleStart
  let px1 := x2 - off1 * E.sin angleStart
  let py1 := y2 + off1 * E.cos angleStart
  let px2 := x1 - off1 * E.sin angleStart
  let py2 := y1 + off1 * E.cos angleStart
  let px3 := x2 + off2 * E.sin angleStart
  let py3 := y2 - off2 * E.cos angleStart
  { xs := [px0, px1, px2, px3, px0, px2, px3, px1],
    ys := [py0, py1, py2, py3, py0, py2, py3, py1],
    linewidth := lineWidth, color := color }

/-- Embeds `_create_bow_tie`. -/
def createBowTie (E : Ext) (x1 x2 y1 y2 off1 off2 lineWidth : ℚ) (color : String)
    (angleStart : ℚ) : PlotCurveLine :=
  let l1x0 := x1 + off2 * E.sin angleStart
  let l1x1 := x2 - off1 * E.sin angleStart
  let l1y0 := y1 - off2 * E.cos angleStart
  let l1y1 := y2 + off1 * E.cos angleStart
  let l2x0 := x1 - off1 * E.sin angleStart
  let l2x1 := x2 + off2 * E.sin angleStart
  let l2y0 := y1 + off1 * E.cos angleStart
  let l2y1 := y2 - off2 * E.cos angleStart
  { xs := [l1x0, l1x1, l2x0, l2x1, l1x0], ys := [l1y0, l1y1, l2y0, l2y1, l1y0],
    linewidth := lineWidth, color := color }

/-- Embeds `_create_diamond`. -/
def createDiamond (E : Ext) (x1 x2 y1 y2 off1 off2 lineWidth : ℚ) (color : String)
    (angleStart : ℚ) : PlotCurveLine :=
  let l1x1 := x1 + (x2 - x1) / 2 - off1 * E.sin angleStart
  let l1y1 := y1 + (y2 - y1) / 2 + off1 * E.cos angleStart
  let l2x1 := x1 + (x2 - x1) / 2 + off2 * E.sin angleStart
  let l2y1 := y1 + (y2 - y1) / 2 - off2 * E.cos angleStart
  { xs := [x1, l1x1, x2, l2x1, x1], ys := [y1, l1y1, y2, l2y1, y1],
    linewidth := lineWidth, color := color }

/-- Embeds `_circle_to_patch`. -/
def circleToPatch (x1 x2 y1 y2 off1 lineWidth : ℚ) (color : String) : PlotPatch :=
  .circle { xy := (x1 + (x2 - x1) / 2, y1 + (y2 - y1) / 2), radius := off1,
            linewidth := some lineWidth, color := some color, fill := false }

/-- Embeds `FloorPlanElement` (drawing products only; the info record is a
back-reference the claims do not consult). -/
structure FloorPlanElement where
  branchIndex : ℤ
  index : ℤ
  lines : List PlotCurveLine
  patches : List PlotPatch
  annots : List PlotLabel
deriving DecidableEq, Repr

/-- The `if`/`elif` shape-dispatch chain of `FloorPlanElement._from_info`
(`plot.py` lines 1761-1887), applied to the lower-cased element kind and the
tag-stripped shape; returns the extra lines and the patches, or the
`ValueError` of the final `elif shape:` arm. -/
def floorShapeDispatch (E : Ext) (key : String)
    (x1 y1 angleStart x2 y2 angleEnd lineWidth : ℚ) (shape : String) (off1 off2 : ℚ)
    (color : String) (relAngleStart relAngleEnd : ℚ) :
    Except Err (List PlotCurveLine × List PlotPatch) :=
  if off1 = 0 ∧ off2 = 0 ∧ key ≠ "sbend" ∧ color ≠ "" then
    .ok ([{ xs := [x1, x2], ys := [y1, y2], linewidth := lineWidth, color := color }], [])
  else if shape = "box" ∧ key ≠ "sbend" ∧ color ≠ "" then
    .ok ([], [boxToPatch E x1 x2 y1 y2 off1 off2 lineWidth color angleStart])
  else if shape = "xbox" ∧ key ≠ "sbend" ∧ color ≠ "" then
    .ok ([createXBox E x1 x2 y1 y2 off1 off2 lineWidth color angleStart], [])
  else if shape = "x" ∧ key ≠ "sbend" ∧ color ≠ "" then
    .ok (createXLines E x1 x2 y1 y2 off1 off2 lineWidth color angleStart, [])
  else if shape = "bow_tie" ∧ key ≠ "sbend" ∧ color ≠ "" then
    .ok ([createBowTie E x1 x2 y1 y2 off1 off2 lineWidth color angleStart], [])
  else if shape = "diamond" ∧ key ≠ "sbend" ∧ color ≠ "" then
    .ok ([createDiamond E x1 x2 y1 y2 off1 off2 lineWidth color angleStart], [])
  else if shape = "circle" ∧ key ≠ "sbend" ∧ color ≠ "" then
    .ok ([], [circleToPatch x1 x2 y1 y2 off1 lineWidth color])
  else if shape = "box" ∧ key = "sbend" ∧ color ≠ "" then
    let capLines := createSbendBox E x1 x2 y1 y2 off1 off2 lineWidth color
      angleStart angleEnd relAngleStart relAngleEnd
    let sbendResult := createSbend E x1 x2 y1 y2 off1 off2 lineWidth color
      angleStart angleEnd relAngleStart relAngleEnd
    .ok (capLines ++ sbendResult.1, sbendResult.2)
  else if shape ≠ "" then
    .error (.valueError ("unhandled shape: " ++ shape))
  else
    .ok ([], [])

/-- Embeds `FloorPlanElement._from_info` (`plot.py` lines 1723-1919):
lower-cases the element kind, strips the shape tag, draws the drift/kicker
centerline, then runs the shape-dispatch chain; an unhandled non-empty
shape raises `ValueError`. -/
def FloorPlanElement.fromInfoRaw (E : Ext) (branchIndex index : ℤ) (eleKey : String)
    (x1 y1 angleStart x2 y2 angleEnd lineWidth : ℚ) (shape : String) (off1 off2 : ℚ)
    (color labelName : String) (relAngleStart relAngleEnd : ℚ) :
    Except Err FloorPlanElement :=
  let key := strLower eleKey
  let shape := shapeAfterColon shape
  let baseLines : List PlotCurveLine :=
    if key = "drift" ∨ key = "kicker" then
      [{ xs := [x1, x2], ys := [y1, y2], color := "black" }]
    else []
  match floorShapeDispatch E key x1 y1 angleStart x2 y2 angleEnd lineWidth shape off1 off2
      color relAngleStart relAngleEnd with
  | .error e => .error e
  | .ok (moreLines, patches) =>
    let annots : List PlotLabel :=
      if labelName ≠ "" ∧ color ≠ "" then
        let baseAngle := E.degrees ((angleEnd + angleStart) / 2)
        let annotAngle := if E.sin ((angleEnd + angleStart) / 2) > 0 then baseAngle - 90
                          else baseAngle + 90
        let align := if E.sin ((angleEnd + angleStart) / 2) > 0 then "right" else "left"
        [{ x := x1 + (x2 - x1) / 2 - (13 / 10) * off1 * E.sin angleStart,
           y := y1 + (y2 - y1) / 2 + (13 / 10) * off1 * E.cos angleStart,
           text := labelName, horizontalalignment := align,
           verticalalignment := "center", color := "black",
           rotation := annotAngle, clipOn := true, rotationMode := "anchor" }]
      else []
    .ok { branchIndex := branchIndex, index := index,
          lines := baseLines ++ moreLines, patches := patches, annots := annots }

/-- One building-wall point record: arc radius and offset position. -/
structure WallPoint where
  radius : ℚ
  offsetX : ℚ
  offsetY : ℚ
deriving DecidableEq, Repr

/-- `np.isclose(a, b)` with numpy defaults `rtol = 1e-5`, `atol = 1e-8`. -/
def npIsClose (a b : ℚ) : Bool := |a - b| ≤ 1 / 100000000 + (1 / 100000) * |b|

/-- The candidate circle-center selection of `_building_wall_to_arc`
(`plot.py` lines 1204-1221); `ci` stands for `util.circle_intersection`
(section 4.1, not among the sources), returning the two candidate
centers. -/
def wallArcCenter (E : Ext) (ci : ℚ → ℚ → ℚ → ℚ → ℚ → (ℚ × ℚ) × (ℚ × ℚ))
    (mx my kx ky kRadii : ℚ) : ℚ × ℚ :=
  let cands := ci mx my kx ky |kRadii|
  let c0 := cands.1
  let c1 := cands.2
  let mpx := (mx + kx) / 2
  let mpy := (my + ky) / 2
  if E.atan2 (my - mpy) (mx - mpx) < E.atan2 c0.2 c0.1
      ∧ E.atan2 c0.2 c0.1 < E.atan2 (my - mpy) (mx - mpx) ∧ kRadii > 0 then
    c1
  else if E.atan2 (my - mpy) (mx - mpx) < E.atan2 c0.2 c0.1
      ∧ E.atan2 c0.2 c0.1 < E.atan2 (my - mpy) (mx - mpx) ∧ kRadii < 0 then
    c0
  else if kRadii > 0 then
    c0
  else
    c1

/-- Embeds `_building_wall_to_arc` (`plot.py` lines 1191-1243). -/
def buildingWallToArc (E : Ext) (ci : ℚ → ℚ → ℚ → ℚ → ℚ → (ℚ × ℚ) × (ℚ × ℚ))
    (mx my kx ky kRadii : ℚ) (color : String) (linewidth : ℚ) : PlotPatchArc :=
  let center := wallArcCenter E ci mx my kx ky kRadii
  let mAngle := 360 + E.degrees (E.atan2 (my - center.2) (mx - center.1))
  let kAngle := 360 + E.degrees (E.atan2 (ky - center.2) (kx - center.1))
  let t := if kAngle > mAngle then (mAngle, kAngle) else (kAngle, mAngle)
  let t := if |kAngle - mAngle| > 180 then (t.2, t.1) else t
  { xy := center, width := kRadii * 2, height := kRadii * 2,
    theta1 := t.1, theta2 := t.2, color := some color, linewidth := some linewidth }

/-- A drawing product of one adjacent building-wall point pair. -/
inductive WallSegment
  | line (l : PlotCurveLine)
  | arc (a : PlotPatchArc)
deriving DecidableEq, Repr

/-- `True` exactly on the arc variant. -/
def WallSegment.isArc : WallSegment → Bool
  | .arc _ => true
  | _ => false

/-- The arc's center, when the segment is an arc. -/
def WallSegment.arcCenter : WallSegment → Option (ℚ × ℚ)
  | .arc a => some a.xy
  | _ => none

/-- The loop body of `BuildingWalls.from_info` (`plot.py` lines 1980-2005)
for one adjacent point pair: near-zero radius gives a straight line,
otherwise `_building_wall_to_arc` (note the swapped point order in the arc
call, as in the source). -/
def buildingWallSegment (E : Ext) (ci : ℚ → ℚ → ℚ → ℚ → ℚ → (ℚ × ℚ) × (ℚ × ℚ))
    (color : String) (lineWidth : ℚ) (point next : WallPoint) : WallSegment :=
  if npIsClose point.radius 0 then
    .line { xs := [point.offsetX, next.offsetX], ys := [point.offsetY, next.offsetY],
            color := color, linewidth := lineWidth }
  else
    .arc (buildingWallToArc E ci next.offsetX next.offsetY point.offsetX point.offsetY
      point.radius color lineWidth)

/-- The per-wall iteration of `BuildingWalls.from_info`: one segment per
adjacent point pair of an ordered wall point list. -/
def buildingWallSegments (E : Ext) (ci : ℚ → ℚ → ℚ → ℚ → ℚ → (ℚ × ℚ) × (ℚ × ℚ))
    (color : String) (lineWidth : ℚ) (points : List WallPoint) : List WallSegment :=
  (points.zip points.tail).map (fun pr => buildingWallSegment E ci color lineWidth pr.1 pr.2)

/-- One entry of the engine's place buffer (`region`, `graph`). -/
structure PlaceBufItem where
  region : String
  graph : String
deriving DecidableEq, Repr

/-- The mutable state of `GraphManager`: cached graphs per region (graphs
kept as names, their structure being irrelevant to the state claims), the
pending-placement buffer `_to_place`, and `_graph_name_to_regions`. -/
structure GraphManagerState where
  regions : List (String × List String)
  toPlace : List (String × String)
  graphNameToRegions : List (String × List String)
deriving DecidableEq, Repr

/-- Python dict assignment `d[k] = v` on an association list. -/
def assocSet (l : List (String × String)) (k v : String) : List (String × String) :=
  if l.any (fun p => p.1 = k) then
    l.map (fun p => if p.1 = k then (k, v) else p)
  else
    l ++ [(k, v)]

/-- Python `d.pop(k, None)` on an association list. -/
def assocRemove (l : List (String × String)) (k : String) : List (String × String) :=
  l.filter (fun p => p.1 ≠ k)

/-- Embeds `GraphManager._update_place_buffer` (`plot.py` lines 2224-2234):
fold the engine's place-buffer items into `_to_place`; a `"none"` graph
clears one region (or, for region `"*"`, the whole buffer). -/
def updatePlaceBufferItems (toPlace : List (String × String)) (items : List PlaceBufItem) :
    List (String × String) :=
  items.foldl (fun acc item =>
    if item.graph = "none" then
      if item.region = "*" then [] else assocRemove acc item.region
    else
      assocSet acc item.region item.graph) toPlace

/-- Embeds the `to_place` property read: refresh from the engine's place
buffer, then return the buffer contents. -/
def GraphManagerState.readToPlace (s : GraphManagerState) (items : List PlaceBufItem) :
    List (String × String) :=
  updatePlaceBufferItems s.toPlace items

/-- Embeds `GraphManager._clear_region` (`plot.py` lines 2426-2439). -/
def GraphManagerState.clearRegion (s : GraphManagerState) (regionName : String) :
    GraphManagerState :=
  if regionName = "*" then
    { s with regions := [], graphNameToRegions := [] }
  else
    { s with
      regions := s.regions.map (fun p => if p.1 = regionName then (p.1, []) else p),
      graphNameToRegions := s.graphNameToRegions.map
        (fun p => (p.1, p.2.filter (fun r => r ≠ regionName))) }

/-- Embeds `GraphManager.clear` (`plot.py` lines 2441-2455): the
`place -no_buffer <region> none` engine command is external (best-effort,
logged on failure) and does not touch manager state; then `_clear_region`. -/
def GraphManagerState.clear (s : GraphManagerState) (regionName : String) :
    GraphManagerState :=
  s.clearRegion regionName

/-! Shared helpers for the verification theorems. -/

/-- A concrete instantiation of the external math bundle, used for witness
evaluations (the claims hold for every bundle). -/
def extId : Ext := ⟨fun q => q, fun q => q, fun a b => a + b, fun q => q, fun q => q⟩

/-- A concrete lookup table for witness evaluations. -/
def tbl0 : String → String := fun _ => ""

/-- A concrete circle-intersection stand-in for witness evaluations. -/
def ci0 : ℚ → ℚ → ℚ → ℚ → ℚ → (ℚ × ℚ) × (ℚ × ℚ) := fun _ _ _ _ _ => ((1, 2), (3, 4))

/-- A concrete curve info record for witness evaluations. -/
def curveInfo0 : CurveInfo := ⟨⟨"", "", 0⟩, ⟨"", "", "", 0, 0⟩, false, false⟩

/-- Unfolds the numpy tolerance check against zero. -/
theorem npIsClose_zero_iff (a : ℚ) : npIsClose a 0 = true ↔ |a| ≤ 1 / 100000000 := by
  unfold npIsClose
  norm_num

/-- A value farther from zero than the tolerance is not close to zero. -/
theorem npIsClose_zero_false {a : ℚ} (h : 1 / 100000000 < |a|) : npIsClose a 0 = false := by
  rw [Bool.eq_false_iff]
  intro hc
  exact absurd ((npIsClose_zero_iff a).mp hc) (not_le.mpr h)

/-- The chosen arc center ignores the angular guards: both strict bounds are
the same value, so the guarded branches are dead and the selection depends
only on the sign of the radius. -/
theorem wallArcCenter_eq (E : Ext) (ci : ℚ → ℚ → ℚ → ℚ → ℚ → (ℚ × ℚ) × (ℚ × ℚ))
    (mx my kx ky kRadii : ℚ) :
    wallArcCenter E ci mx my kx ky kRadii
      = if kRadii > 0 then (ci mx my kx ky |kRadii|).1 else (ci mx my kx ky |kRadii|).2 := by
  unfold wallArcCenter
  have hdead : ¬ (E.atan2 (my - (my + ky) / 2) (mx - (mx + kx) / 2)
      < E.atan2 (ci mx my kx ky |kRadii|).1.2 (ci mx my kx ky |kRadii|).1.1
    ∧ E.atan2 (ci mx my kx ky |kRadii|).1.2 (ci mx my kx ky |kRadii|).1.1
      < E.atan2 (my - (my + ky) / 2) (mx - (mx + kx) / 2)) := by
    rintro ⟨h1, h2⟩
    exact absurd h2 (not_lt.mpr h1.le)
  rw [if_neg, if_neg]
  · rintro ⟨h1, h2, -⟩
    exact hdead ⟨h1, h2⟩
  · rintro ⟨h1, h2, -⟩
    exact hdead ⟨h1, h2⟩

/-- C10: the two angular guard conditions of the building-wall arc builder
bound a strict chain by the same value on both sides and never fire, so for
every input the arc center is the first candidate of the circle-intersection
utility when the signed radius is positive and the second otherwise,
independent of the points' angular positions (the statement quantifies over
every `atan2`). -/
theorem buildingWallToArc_center_selection (E : Ext)
    (ci : ℚ → ℚ → ℚ → ℚ → ℚ → (ℚ × ℚ) × (ℚ × ℚ))
    (mx my kx ky kRadii linewidth : ℚ) (color : String) :
    (buildingWallToArc E ci mx my kx ky kRadii color linewidth).xy
      = if kRadii > 0 then (ci mx my kx ky |kRadii|).1 else (ci mx my kx ky |kRadii|).2 := by
  unfold buildingWallToArc
  rw [wallArcCenter_eq]

/-- C9 counterexample: a non-zero radius of `1e-9` lies within the numpy
`isclose` tolerance of zero, so the pair yields a straight line and not the
arc patch the claim promises for every non-zero radius. -/
theorem buildingWallSegment_tiny_radius_cex :
    (1 / 1000000000 : ℚ) ≠ 0
    ∧ (buildingWallSegment extId ci0 "red" 1
        ⟨1 / 1000000000, 0, 0⟩ ⟨0, 1, 1⟩).isArc = false := by
  constructor
  · norm_num
  · have hc : npIsClose (1 / 1000000000 : ℚ) 0 = true :=
      (npIsClose_zero_iff _).mpr (by rw [abs_of_pos (by norm_num)]; norm_num)
    unfold buildingWallSegment
    rw [if_pos hc]
    rfl

/-- C9 (amended): between two adjacent building-wall points, a radius within
the numpy is-close tolerance of zero (in particular exactly zero) yields a
straight line whose endpoints are the two offset positions; a radius outside
the tolerance yields a single arc patch whose center is selected
deterministically: the first circle-intersection candidate for a positive
signed radius, the second otherwise. -/
theorem buildingWallSegment_radius_dispatch (E : Ext)
    (ci : ℚ → ℚ → ℚ → ℚ → ℚ → (ℚ × ℚ) × (ℚ × ℚ))
    (color : String) (lineWidth : ℚ) (p q : WallPoint) :
    (npIsClose p.radius 0 = true →
      buildingWallSegment E ci color lineWidth p q
        = .line { xs := [p.offsetX, q.offsetX], ys := [p.offsetY, q.offsetY],
                  color := color, linewidth := lineWidth })
  ∧ (npIsClose p.radius 0 = false →
      (buildingWallSegment E ci color lineWidth p q).isArc = true
      ∧ (buildingWallSegment E ci color lineWidth p q).arcCenter
          = some (if p.radius > 0
              then (ci q.offsetX q.offsetY p.offsetX p.offsetY |p.radius|).1
              else (ci q.offsetX q.offsetY p.offsetX p.offsetY |p.radius|).2)) := by
  constructor
  · intro h
    unfold buildingWallSegment
    rw [if_pos h]
  · intro h
    unfold buildingWallSegment
    rw [if_neg (by simp [h])]
    refine ⟨rfl, ?_⟩
    unfold WallSegment.arcCenter buildingWallToArc
    rw [wallArcCenter_eq]

/-- C9 witness: the dispatch theorem applied at a zero radius (line case) and
at radius one (arc case). -/
theorem buildingWallSegment_radius_dispatch_wit :
    buildingWallSegment extId ci0 "w" 2 ⟨0, 5, 6⟩ ⟨0, 7, 8⟩
      = .line { xs := [5, 7], ys := [6, 8], color := "w", linewidth := 2 }
    ∧ (buildingWallSegment extId ci0 "w" 2 ⟨1, 5, 6⟩ ⟨0, 7, 8⟩).isArc = true :=
  ⟨(buildingWallSegment_radius_dispatch extId ci0 "w" 2 ⟨0, 5, 6⟩ ⟨0, 7, 8⟩).1
     ((npIsClose_zero_iff 0).mpr (by norm_num)),
   ((buildingWallSegment_radius_dispatch extId ci0 "w" 2 ⟨1, 5, 6⟩ ⟨0, 7, 8⟩).2
     (npIsClose_zero_false (by rw [abs_one]; norm_num))).1⟩

/-- C8 counterexample: `clear("*")` leaves the pending-placement buffer
untouched; a manager whose buffer holds one entry still reports it through
`to_place` after the clear, so the buffer is not empty as claimed. -/
theorem clear_star_toPlace_cex :
    (GraphManagerState.clear ⟨[("r1", ["g1"])], [("r1", "g1")], []⟩ "*").readToPlace [] ≠ [] := by
  decide

/-- C8 (amended): after `clear("*")`, every cached region graph list is gone
(the region table and the graph-name index are emptied), but the
pending-placement buffer is not cleared: a subsequent `to_place` read returns
exactly what it would have returned before the clear, for any batch of
place-buffer items polled from the engine. -/
theorem clear_star_state (s : GraphManagerState) (items : List PlaceBufItem) :
    (s.clear "*").regions = []
    ∧ (s.clear "*").graphNameToRegions = []
    ∧ (s.clear "*").readToPlace items = s.readToPlace items := by
  unfold GraphManagerState.clear GraphManagerState.clearRegion GraphManagerState.readToPlace
  simp

/-- C3 counterexample: the source compares the resolved fill pattern with
`"full"` only; under a resolution table sending the pattern to `"solid"`,
an outline marker gets `false` although the claim requires `true` for a
fill pattern resolving to `"solid"`. -/
theorem shouldUseSymbolColor_solid_cex :
    (fun _ : String => "solid") "hatched" = "solid"
    ∧ shouldUseSymbolColor (fun _ => "solid") "square" "hatched" = false := by
  constructor
  · rfl
  · decide

/-- C3 (amended): the symbol-color rule is a pure function of the marker kind
and the fill pattern: it returns `true` exactly when the marker kind is
`"dot"` or `"1"`, or ends with `"filled"`, or starts with `"-"`, or the fill
pattern resolves to `"full"` (resolutions to `"solid"` or anything else give
`false`); otherwise it returns `false`. -/
theorem shouldUseSymbolColor_truth_table (fills : String → String) (t p : String) :
    shouldUseSymbolColor fills t p = true
      ↔ (t = "dot" ∨ t = "1" ∨ strEndsWith t "filled" = true ∨ strStartsWith t "-" = true
          ∨ fills p = "full") := by
  unfold shouldUseSymbolColor
  split_ifs with h1 h2
  · simp only [true_iff]
    tauto
  · simp only [true_iff]
    tauto
  · simp only [false_iff]
    tauto

/-- C3 witness: the truth table evaluated on a concrete input. -/
theorem shouldUseSymbolColor_truth_table_wit :
    shouldUseSymbolColor tbl0 "dot" "x" = true :=
  (shouldUseSymbolColor_truth_table tbl0 "dot" "x").mpr (Or.inl rfl)

/-- `min` of the halved and the doubled value picks the more negative one. -/
theorem min_half_double (m : ℚ) :
    min ((1 / 2) * m) (2 * m) = if m ≤ 0 then 2 * m else (1 / 2) * m := by
  rcases le_or_lt m 0 with h | h
  · rw [if_pos h, min_eq_right (by linarith)]
  · rw [if_neg (not_le.mpr h), min_eq_left (by linarith)]

/-- `max` of the halved and the doubled value picks the more positive one. -/
theorem max_half_double (m : ℚ) :
    max ((1 / 2) * m) (2 * m) = if 0 ≤ m then 2 * m else (1 / 2) * m := by
  rcases le_or_lt 0 m with h | h
  · rw [if_pos h, max_eq_right (by linarith)]
  · rw [if_neg (not_le.mpr h), max_eq_left (by linarith)]

/-- The y-range computation succeeds whenever any points exist. -/
theorem curveYRange_isOk (yl sl : List ℚ) (h : yl ≠ [] ∨ sl ≠ []) :
    ∃ r, curveYRange yl sl = .ok r := by
  unfold curveYRange
  split_ifs with h1 h2 h3
  · exact ⟨_, rfl⟩
  · exact ⟨_, rfl⟩
  · exact ⟨_, rfl⟩
  · exact absurd h (by tauto)

/-- C5 counterexample: with an empty line-point list and one symbol point at
`y = 2`, the computed y-range is exactly `(2, 2)` and not the
claimed extended range (`(1, 4)` after doubling/halving each end), so the
extension is not applied for every combination of non-empty lists. -/
theorem curveYRange_no_extension_cex :
    curveYRange [] [2] = .ok (2, 2)
    ∧ curveYRange [] [2]
        ≠ .ok (min ((1 / 2) * 2) (2 * 2), max ((1 / 2) * 2) (2 * 2)) := by
  constructor
  · unfold curveYRange
    rw [if_neg (by simp), if_pos (by simp)]
    rfl
  · unfold curveYRange
    rw [if_neg (by simp), if_pos (by simp)]
    rw [min_half_double, max_half_double]
    norm_num
    intro h
    norm_num [listMin] at h

/-- C5 (amended): the y-range is extended (each end doubled or halved,
whichever is more extreme for its sign) only when both the line-point and
symbol-point lists are non-empty, in which case it extends the union of the
two y-extents; when exactly one list is non-empty the range is that list's
bare extent with no extension; when both are empty the computation fails
with the no-curve-data error. -/
theorem curveYRange_extension (yl sl : List ℚ) :
    (yl ≠ [] → sl ≠ [] →
      curveYRange yl sl = .ok
        ((if min (listMin yl) (listMin sl) ≤ 0 then 2 * min (listMin yl) (listMin sl)
          else (1 / 2) * min (listMin yl) (listMin sl)),
         (if 0 ≤ max (listMax yl) (listMax sl) then 2 * max (listMax yl) (listMax sl)
          else (1 / 2) * max (listMax yl) (listMax sl))))
    ∧ (yl = [] → sl ≠ [] → curveYRange yl sl = .ok (listMin sl, listMax sl))
    ∧ (sl = [] → yl ≠ [] → curveYRange yl sl = .ok (listMin yl, listMax yl))
    ∧ (yl = [] → sl = [] → curveYRange yl sl = .error .noCurveData) := by
  refine ⟨?_, ?_, ?_, ?_⟩
  · intro hy hs
    unfold curveYRange
    rw [if_pos ⟨hy, hs⟩]
    dsimp only
    rw [min_half_double, max_half_double]
  · rintro rfl hs
    unfold curveYRange
    rw [if_neg (by simp), if_pos hs]
  · rintro rfl hy
    unfold curveYRange
    rw [if_neg (by simp), if_neg (by simp), if_pos hy]
  · rintro rfl rfl
    unfold curveYRange
    rw [if_neg (by simp), if_neg (by simp), if_neg (by simp)]

/-- C5 witness: with line y-points `[1]` and symbol y-points `[2]`, both ends
are extended: the result is `(1/2, 4)`. -/
theorem curveYRange_extension_wit : curveYRange [1] [2] = .ok (1 / 2, 4) := by
  have h := (curveYRange_extension [1] [2]).1 (by simp) (by simp)
  rw [h]
  norm_num [listMin, listMax]

/-- C1 counterexample: with a non-empty line-point list but the unsupported
graph kind `key_table`, `from_info` raises `NotImplementedError` instead of
succeeding, so non-empty point data alone does not guarantee success. -/
theorem fromInfo_unsupported_kind_cex :
    PlotCurve.fromInfo tbl0 tbl0 tbl0 tbl0 "key_table" curveInfo0 [(0, 1)] [] none none
      = .error (.notImplementedError "graph_type: key_table") := by
  unfold PlotCurve.fromInfo
  norm_num [curveYRange]
  rfl

/-- C1 (amended): `from_info` raises the no-curve-data error whenever both
the line-point and the symbol-point lists are empty (regardless of graph
kind); when at least one list is non-empty it succeeds provided the graph
kind is supported: a data-family kind, a wave kind with wave parameters
supplied, or the histogram kind with histogram info supplied. -/
theorem fromInfo_curve_data_presence (mplColor styles fills symbols : String → String)
    (graphType : String) (ci : CurveInfo) (points symbolPoints : List (ℚ × ℚ))
    (hist : Option ℚ) (wp : Option WaveParams) :
    (points = [] → symbolPoints = [] →
      PlotCurve.fromInfo mplColor styles fills symbols graphType ci points symbolPoints hist wp
        = .error .noCurveData)
    ∧ ((points ≠ [] ∨ symbolPoints ≠ []) →
        (graphType = "data" ∨ graphType = "dynamic_aperture" ∨ graphType = "phase_space"
          ∨ ((graphType = "wave.0" ∨ graphType = "wave.a" ∨ graphType = "wave.b") ∧ wp ≠ none)
          ∨ (graphType = "histogram" ∧ hist ≠ none)) →
        okB (PlotCurve.fromInfo mplColor styles fills symbols graphType ci points
          symbolPoints hist wp) = true) := by
  constructor
  · rintro rfl rfl
    unfold PlotCurve.fromInfo
    simp [curveYRange]
  · intro hne hsupp
    have hys : points.map Prod.snd ≠ [] ∨ symbolPoints.map Prod.snd ≠ [] := by
      rcases hne with h | h
      · exact Or.inl (fun hm => h (List.map_eq_nil_iff.mp hm))
      · exact Or.inr (fun hm => h (List.map_eq_nil_iff.mp hm))
    obtain ⟨⟨yMin, yMax⟩, hyr⟩ := curveYRange_isOk _ _ hys
    simp only [PlotCurve.fromInfo]
    rw [hyr]
    rcases hsupp with h | h | h | ⟨h, hwp⟩ | ⟨h, hh⟩
    · subst h
      simp [okB]
    · subst h
      simp [okB]
    · subst h
      simp [okB]
    · cases wp with
      | none => exact absurd rfl hwp
      | some w =>
        rcases h with h | h | h <;> subst h <;> simp [okB]
    · cases hist with
      | none => exact absurd rfl hh
      | some n =>
        subst h
        simp [okB]

/-- C1 witness: the theorem applied to an empty curve (no-curve-data error)
and to a one-point data curve (success). -/
theorem fromInfo_curve_data_presence_wit :
    PlotCurve.fromInfo tbl0 tbl0 tbl0 tbl0 "data" curveInfo0 [] [] none none
      = .error .noCurveData
    ∧ okB (PlotCurve.fromInfo tbl0 tbl0 tbl0 tbl0 "data" curveInfo0 [(0, 1)] [] none none)
      = true :=
  ⟨(fromInfo_curve_data_presence tbl0 tbl0 tbl0 tbl0 "data" curveInfo0 [] [] none none).1
     rfl rfl,
   (fromInfo_curve_data_presence tbl0 tbl0 tbl0 tbl0 "data" curveInfo0 [(0, 1)] [] none
     none).2 (Or.inl (by simp)) (Or.inl rfl)⟩

/-- C4: for a wave graph, `from_info` attaches exactly two unfilled
rectangles for kind `wave.0` and exactly one for `wave.a` / `wave.b`; each
spans from the first wave parameter of its pair over a width equal to the
pair's difference, from `y_min` over the full computed y-range in height;
the rectangles' color is `orange` exactly when the (resolved) symbol color
is one of blue/navy/cyan/green/purple and `blue` otherwise. -/
theorem fromInfo_wave_rectangles (mplColor styles fills symbols : String → String)
    (ci : CurveInfo) (points symbolPoints : List (ℚ × ℚ)) (hist : Option ℚ)
    (wp : WaveParams) (yMin yMax : ℚ)
    (hyr : curveYRange (points.map Prod.snd) (symbolPoints.map Prod.snd) = .ok (yMin, yMax)) :
    (∀ wc, wc = (if mplColor ci.symbol.color = "blue" ∨ mplColor ci.symbol.color = "navy"
          ∨ mplColor ci.symbol.color = "cyan" ∨ mplColor ci.symbol.color = "green"
          ∨ mplColor ci.symbol.color = "purple" then "orange" else "blue") →
      patchesOf (PlotCurve.fromInfo mplColor styles fills symbols "wave.0" ci points
          symbolPoints hist (some wp))
        = some [.rect { xy := (wp.ixA1, yMin), width := wp.ixA2 - wp.ixA1,
                        height := yMax - yMin, fill := false, color := some wc },
                .rect { xy := (wp.ixB1, yMin), width := wp.ixB2 - wp.ixB1,
                        height := yMax - yMin, fill := false, color := some wc }]
      ∧ patchesOf (PlotCurve.fromInfo mplColor styles fills symbols "wave.a" ci points
          symbolPoints hist (some wp))
        = some [.rect { xy := (wp.ixA1, yMin), width := wp.ixA2 - wp.ixA1,
                        height := yMax - yMin, fill := false, color := some wc }]
      ∧ patchesOf (PlotCurve.fromInfo mplColor styles fills symbols "wave.b" ci points
          symbolPoints hist (some wp))
        = some [.rect { xy := (wp.ixB1, yMin), width := wp.ixB2 - wp.ixB1,
                        height := yMax - yMin, fill := false, color := some wc }])
    ∧ ((if mplColor ci.symbol.color = "blue" ∨ mplColor ci.symbol.color = "navy"
          ∨ mplColor ci.symbol.color = "cyan" ∨ mplColor ci.symbol.color = "green"
          ∨ mplColor ci.symbol.color = "purple" then "orange" else "blue") = "orange"
        ↔ (mplColor ci.symbol.color = "blue" ∨ mplColor ci.symbol.color = "navy"
          ∨ mplColor ci.symbol.color = "cyan" ∨ mplColor ci.symbol.color = "green"
          ∨ mplColor ci.symbol.color = "purple")) := by
  constructor
  · rintro wc rfl
    refine ⟨?_, ?_, ?_⟩ <;>
      · simp only [PlotCurve.fromInfo]
        rw [hyr]
        simp [patchesOf]
  · split_ifs with h
    · simp [h]
    · simp [h]

/-- C4 witness: the wave-rectangle theorem evaluated on a concrete one-point
curve with wave parameters `(1, 2, 3, 4)` and a non-cool symbol color. -/
theorem fromInfo_wave_rectangles_wit :
    patchesOf (PlotCurve.fromInfo tbl0 tbl0 tbl0 tbl0 "wave.0" curveInfo0 [(0, 1)] []
        none (some ⟨1, 2, 3, 4⟩))
      = some [.rect { xy := (1, 1), width := 1, height := 0, fill := false,
                      color := some "blue" },
              .rect { xy := (3, 1), width := 1, height := 0, fill := false,
                      color := some "blue" }] := by
  have h := ((fromInfo_wave_rectangles tbl0 tbl0 tbl0 tbl0 curveInfo0 [(0, 1)] [] none
      ⟨1, 2, 3, 4⟩ 1 1 (by norm_num [curveYRange, listMin, listMax])).1
      "blue" (by simp [tbl0])).1
  norm_num at h
  exact h

/-- The patches of a successfully built lattice element. -/
def latPatches : Except Err LatticeLayoutElement → Option (List PlotPatch)
  | .ok e => some e.patches
  | .error _ => none

/-- The line segments of a successfully built lattice element. -/
def latLines : Except Err LatticeLayoutElement → Option (List (List (ℚ × ℚ)))
  | .ok e => some e.lines
  | .error _ => none

/-- The number of line segments of a built lattice element (0 on failure). -/
def latLinesCount : Except Err LatticeLayoutElement → ℕ
  | .ok e => e.lines.length
  | .error _ => 0

/-- The number of text labels of a built lattice element (0 on failure). -/
def latLabelCount : Except Err LatticeLayoutElement → ℕ
  | .ok e => e.annots.length
  | .error _ => 0

/-- C6: a lattice-layout element whose (tag-stripped) shape is `box` and with
`ele_s_end > ele_s_start` yields exactly one rectangle patch, placed at
`(s1, y1)` with `width = s2 - s1` and `height = y2 - y1` (in the builder's
scaled transverse coordinates), and no line segments; with
`ele_s_end <= ele_s_start` it yields zero patches, at least one wrap-around
line segment, and exactly two text labels. -/
theorem latticeElement_box_shapes (xMin xMax : ℚ) (info : LatLayoutInfo)
    (y2Floor scale : ℚ) (hshape : shapeAfterColon info.shape = "box") :
    (info.eleSStart < info.eleSEnd →
      latPatches (LatticeLayoutElement.fromInfo xMin xMax info y2Floor scale)
        = some [.rect { xy := (info.eleSStart, info.y1 * scale),
                        width := info.eleSEnd - info.eleSStart,
                        height := -info.y2 * scale - info.y1 * scale,
                        linewidth := some info.lineWidth,
                        color := some info.color, fill := false }]
      ∧ latLines (LatticeLayoutElement.fromInfo xMin xMax info y2Floor scale) = some [])
    ∧ (info.eleSEnd ≤ info.eleSStart →
      latPatches (LatticeLayoutElement.fromInfo xMin xMax info y2Floor scale) = some []
      ∧ 1 ≤ latLinesCount (LatticeLayoutElement.fromInfo xMin xMax info y2Floor scale)
      ∧ latLabelCount (LatticeLayoutElement.fromInfo xMin xMax info y2Floor scale) = 2) := by
  constructor
  · intro hlt
    simp only [LatticeLayoutElement.fromInfo]
    rw [hshape, if_pos hlt]
    unfold LatticeLayoutElement.regularShape
    rw [if_neg (not_not.mpr hlt)]
    simp [latPatches, latLines]
  · intro hle
    simp only [LatticeLayoutElement.fromInfo]
    rw [hshape, if_neg (not_lt.mpr hle)]
    unfold LatticeLayoutElement.wrappedShape
    rw [if_neg (not_not.mpr hle)]
    simp [getWrappedShapeCoords, latPatches, latLinesCount, latLabelCount]

/-- C6 witness: the theorem applied to a regular box element
(`s = (0, 1)`, transverse 1 above and 2 below) and to a wrapped box element
(`s = (1, 0)`). -/
theorem latticeElement_box_shapes_wit :
    latPatches (LatticeLayoutElement.fromInfo 0 10 ⟨0, 1, 1, 2, 3, "red", "box", "q"⟩ (-3) 1)
      = some [.rect { xy := (0, 1), width := 1, height := -3,
                      linewidth := some 3, color := some "red", fill := false }]
    ∧ latPatches (LatticeLayoutElement.fromInfo 0 10 ⟨1, 0, 1, 2, 3, "red", "box", "q"⟩ (-3) 1)
      = some []
    ∧ latLabelCount (LatticeLayoutElement.fromInfo 0 10 ⟨1, 0, 1, 2, 3, "red", "box", "q"⟩ (-3) 1)
      = 2 := by
  have h1 := (latticeElement_box_shapes 0 10 ⟨0, 1, 1, 2, 3, "red", "box", "q"⟩ (-3) 1
    (by decide)).1 (by norm_num)
  have h2 := (latticeElement_box_shapes 0 10 ⟨1, 0, 1, 2, 3, "red", "box", "q"⟩ (-3) 1
    (by decide)).2 (by norm_num)
  refine ⟨?_, h2.1, h2.2.2⟩
  have := h1.1
  norm_num at this
  exact this

/-- C7 counterexample: a floor-plan element with the unrecognized shape
`"weird"` but zero transverse offsets, a non-sbend kind and a color is drawn
as a simple line and `_from_info` returns normally, so an unrecognized shape
keyword is not fatal on the floor-plan element path. -/
theorem floorplan_unrecognized_shape_ok_cex :
    okB (FloorPlanElement.fromInfoRaw extId 0 0 "quadrupole" 0 0 0 1 1 0 1 "weird" 0 0
      "red" "" 0 0) = true := by
  rfl

/-- C7 (amended): an unrecognized shape keyword is fatal on the lattice
regular-shape path (`NotImplementedError`); on the floor-plan element path a
non-empty unrecognized shape is fatal (`ValueError`) except when both
offsets are zero, the kind is not sbend and a color is set, in which case
the simple-line branch takes precedence and no error is raised; on the
lattice wrap-around path an unrecognized shape produces an empty list of
line segments without raising. -/
theorem unrecognized_shape_policy (E : Ext)
    (s1 s2 y1 y2 width y2Floor xMin xMax : ℚ) (color shape name : String)
    (key : String) (fx1 fy1 fas fx2 fy2 fae flw foff1 foff2 fras frae : ℚ)
    (fcolor : String) :
    (s1 < s2 →
      shape ≠ "box" → shape ≠ "xbox" → shape ≠ "x" → shape ≠ "bow_tie" →
      shape ≠ "rbow_tie" → shape ≠ "diamond" → shape ≠ "circle" →
      shape ≠ "u_triangle" → shape ≠ "d_triangle" → shape ≠ "l_triangle" →
      shape ≠ "r_triangle" →
      LatticeLayoutElement.regularShape s1 s2 y1 y2 width color shape name y2Floor
        = .error (.notImplementedError shape))
    ∧ (shape ≠ "box" → shape ≠ "xbox" → shape ≠ "x" → shape ≠ "bow_tie" →
      shape ≠ "diamond" → shape ≠ "circle" → shape ≠ "" →
      ¬ (foff1 = 0 ∧ foff2 = 0 ∧ key ≠ "sbend" ∧ fcolor ≠ "") →
      floorShapeDispatch E key fx1 fy1 fas fx2 fy2 fae flw shape foff1 foff2 fcolor fras frae
        = .error (.valueError ("unhandled shape: " ++ shape)))
    ∧ (s2 ≤ s1 →
      shape ≠ "box" → shape ≠ "xbox" → shape ≠ "x" → shape ≠ "bow_tie" →
      shape ≠ "diamond" →
      (LatticeLayoutElement.wrappedShape s1 s2 y1 y2 color shape name xMin xMax y2Floor).map
        Prod.fst = .ok []) := by
  refine ⟨?_, ?_, ?_⟩
  · intro hlt h1 h2 h3 h4 h5 h6 h7 h8 h9 h10 h11
    unfold LatticeLayoutElement.regularShape
    rw [if_neg (not_not.mpr hlt), if_neg h1, if_neg h2, if_neg h3, if_neg h4, if_neg h5,
      if_neg h6, if_neg h7, if_neg h8, if_neg h9, if_neg h10, if_neg h11]
  · intro h1 h2 h3 h4 h5 h6 hne hline
    unfold floorShapeDispatch
    rw [if_neg hline,
      if_neg (fun hc => h1 hc.1), if_neg (fun hc => h2 hc.1), if_neg (fun hc => h3 hc.1),
      if_neg (fun hc => h4 hc.1), if_neg (fun hc => h5 hc.1), if_neg (fun hc => h6 hc.1),
      if_neg (fun hc => h1 hc.1), if_pos hne]
  · intro hle h1 h2 h3 h4 h5
    unfold LatticeLayoutElement.wrappedShape
    rw [if_neg (not_not.mpr hle)]
    simp [getWrappedShapeCoords, h1, h2, h3, h4, h5, Except.map]

/-- C7 witness: the policy theorem applied to the shape `"weird"` on all
three paths. -/
theorem unrecognized_shape_policy_wit :
    LatticeLayoutElement.regularShape 0 1 1 (-2) 1 "red" "weird" "q" (-3)
      = .error (.notImplementedError "weird")
    ∧ floorShapeDispatch extId "quadrupole" 0 0 0 0 0 0 1 "weird" 1 1 "red" 0 0
      = .error (.valueError "unhandled shape: weird")
    ∧ (LatticeLayoutElement.wrappedShape 1 0 1 (-2) "red" "weird" "q" 0 10 (-3)).map
        Prod.fst = .ok [] := by
  have h := unrecognized_shape_policy extId 0 1 1 (-2) 1 (-3) 0 10 "red" "weird" "q"
    "quadrupole" 0 0 0 0 0 0 1 1 1 0 0 "red"
  have h3 := unrecognized_shape_policy extId 1 0 1 (-2) 1 (-3) 0 10 "red" "weird" "q"
    "quadrupole" 0 0 0 0 0 0 1 1 1 0 0 "red"
  refine ⟨h.1 (by norm_num) (by decide) (by decide) (by decide) (by decide) (by decide)
      (by decide) (by decide) (by decide) (by decide) (by decide) (by decide), ?_, ?_⟩
  · have h2 := h.2.1 (by decide) (by decide) (by decide) (by decide) (by decide) (by decide)
      (by decide) (by norm_num)
    simpa using h2
  · exact h3.2.2 (by norm_num) (by decide) (by decide) (by decide) (by decide) (by decide)

/-- The four corner points (outer entry, outer exit, inner exit, inner
entry) of a custom closed-path patch, in the order the splines store them. -/
def sbendCorners : PlotPatch → Option ((ℚ × ℚ) × (ℚ × ℚ) × (ℚ × ℚ) × (ℚ × ℚ))
  | .sbend s => some (s.spline1.1, s.spline1.2.2, s.spline2.1, s.spline2.2.2)
  | _ => none

/-- Arc patches are not custom closed paths. -/
theorem isSbendPatch_arc (a : PlotPatchArc) : isSbendPatch (.arc a) = false := rfl

/-- The sbend intersection patch is a custom closed path. -/
theorem isSbendPatch_sip (E : Ext) (pt : ℚ × ℚ)
    (x1 x2 y1 y2 off1 off2 angleStart angleEnd relAngleStart relAngleEnd : ℚ) :
    isSbendPatch (sbendIntersectionToPatch E pt x1 x2 y1 y2 off1 off2 angleStart angleEnd
      relAngleStart relAngleEnd) = true := by
  unfold sbendIntersectionToPatch
  rfl

/-- A second concrete external bundle whose sine and cosine differ, used for
witness evaluations of the intersecting branch. -/
def extSC : Ext := ⟨fun q => q, fun _ => 1, fun a b => a + b, fun q => q, fun q => q⟩

/-- C2: if the two sbend construction lines are parallel — which holds in
particular for a zero net bend, i.e. equal entry and exit angles (with zero
relative exit angle) — the builder returns exactly two straight boundary
segments between the outer corners and between the inner corners, and no
patches (hence no arcs); if the construction lines intersect, the lines list
is empty and the patches contain exactly one custom closed path (two
quadratic splines joined by straight end segments) whose corner points are
the analytically rotated offsets `x1 - off1*sin(angle_start - rel_angle_start)`,
`y1 + off1*cos(angle_start - rel_angle_start)`, etc. -/
theorem createSbend_parallel_and_intersecting (E : Ext)
    (x1 x2 y1 y2 off1 off2 lw : ℚ) (color : String) (as ae ras rae : ℚ) :
    (as = ae → rae = 0 →
      createSbend E x1 x2 y1 y2 off1 off2 lw color as ae ras rae
        = ([{ xs := [x1 - off1 * E.sin (as - ras), x2 - off1 * E.sin (ae + rae)],
              ys := [y1 + off1 * E.cos (as - ras), y2 + off1 * E.cos (ae + rae)],
              linewidth := lw, color := color },
            { xs := [x1 + off2 * E.sin (as - ras), x2 + off2 * E.sin (ae + rae)],
              ys := [y1 - off2 * E.cos (as - ras), y2 - off2 * E.cos (ae + rae)],
              linewidth := lw, color := color }], []))
    ∧ (∀ pt : ℚ × ℚ, intersectLines
          (lineThrough (x1 - off1 * E.sin as, y1 + off1 * E.cos as)
            (x1 + off2 * E.sin as, y1 - off2 * E.cos as))
          (lineThrough (x2 - off1 * E.sin ae, y2 + off1 * E.cos ae)
            (x2 + off2 * E.sin ae, y2 - off2 * E.cos (ae + rae))) = some pt →
        (createSbend E x1 x2 y1 y2 off1 off2 lw color as ae ras rae).1 = []
        ∧ ((createSbend E x1 x2 y1 y2 off1 off2 lw color as ae ras rae).2.filter
            isSbendPatch)
          = [sbendIntersectionToPatch E pt x1 x2 y1 y2 off1 off2 as ae ras rae]
        ∧ sbendCorners (sbendIntersectionToPatch E pt x1 x2 y1 y2 off1 off2 as ae ras rae)
          = some ((x1 - off1 * E.sin (as - ras), y1 + off1 * E.cos (as - ras)),
                  (x2 - off1 * E.sin (ae + rae), y2 + off1 * E.cos (ae + rae)),
                  (x2 + off2 * E.sin (ae + rae), y2 - off2 * E.cos (ae + rae)),
                  (x1 + off2 * E.sin (as - ras), y1 - off2 * E.cos (as - ras)))) := by
  constructor
  · rintro rfl rfl
    have hd : intersectDenom
        (lineThrough (x1 - off1 * E.sin as, y1 + off1 * E.cos as)
          (x1 + off2 * E.sin as, y1 - off2 * E.cos as))
        (lineThrough (x2 - off1 * E.sin as, y2 + off1 * E.cos as)
          (x2 + off2 * E.sin as, y2 - off2 * E.cos (as + 0))) = 0 := by
      unfold intersectDenom lineThrough
      rw [add_zero]
      ring
    have hnone : intersectLines
        (lineThrough (x1 - off1 * E.sin as, y1 + off1 * E.cos as)
          (x1 + off2 * E.sin as, y1 - off2 * E.cos as))
        (lineThrough (x2 - off1 * E.sin as, y2 + off1 * E.cos as)
          (x2 + off2 * E.sin as, y2 - off2 * E.cos (as + 0))) = none := by
      unfold intersectLines
      rw [if_pos hd]
    simp only [createSbend]
    rw [hnone]
  · intro pt hpt
    simp only [createSbend]
    rw [hpt]
    refine ⟨rfl, ?_, ?_⟩
    · simp [isSbendPatch_arc, isSbendPatch_sip]
    · unfold sbendCorners sbendIntersectionToPatch
      rfl

/-- C2 witness: the parallel branch evaluated at equal angles (two straight
segments, no patches) and the intersecting branch evaluated on a concrete
geometry with intersection point `(0, 4)`. -/
theorem createSbend_parallel_and_intersecting_wit :
    createSbend extId 0 1 0 0 1 1 1 "g" 0 0 0 0
      = ([{ xs := [0, 1], ys := [0, 0], linewidth := 1, color := "g" },
          { xs := [0, 1], ys := [0, 0], linewidth := 1, color := "g" }], [])
    ∧ ((createSbend extSC 0 4 0 0 1 1 1 "g" 0 1 0 0).2.filter isSbendPatch)
      = [sbendIntersectionToPatch extSC (0, 4) 0 4 0 0 1 1 0 1 0 0]
    ∧ sbendCorners (sbendIntersectionToPatch extSC (0, 4) 0 4 0 0 1 1 0 1 0 0)
      = some ((0, 1), (3, 1), (5, -1), (0, -1)) := by
  have h1 := (createSbend_parallel_and_intersecting extId 0 1 0 0 1 1 1 "g" 0 0 0 0).1
    rfl rfl
  have h2 := (createSbend_parallel_and_intersecting extSC 0 4 0 0 1 1 1 "g" 0 1 0 0).2
    (0, 4) (by norm_num [intersectLines, intersectDenom, lineThrough, extSC])
  refine ⟨?_, h2.2.1, ?_⟩
  · rw [h1]
    norm_num [extId]
  · have h3 := h2.2.2
    norm_num [extSC] at h3
    exact h3

end PytaoPlot
